import Mathlib

/-!
Verification of the QA scoring / gating / retry-ladder specification embedded in
the sprite-sheet-automation research repository.

The repository's scripts hard-code the rubric tables
(`score_ranks`, `gemini_v2_weights`, `reject_codes`, `retry_ladder`,
`opus_hard_gates`, `opus_thresholds`, `runs_data`, `df_scoring`).
The tables below are translated directly from those scripts; the decision
functions that consume them (gate evaluator, rank classifier, retry controller)
are not implemented anywhere in the repository, so they are modelled from the
design document, as flagged in their doc comments.
-/

/-- Status column of the rank-band table (`score_ranks` in `script.py`). -/
inductive Status where
  | PASS
  | SOFT_FAIL
  | REJECT
  deriving DecidableEq, Repr

/-- Rank column of the rank-band table (`score_ranks` in `script.py`). -/
inductive Rank where
  | diamond
  | gold
  | silver
  | bronze
  deriving DecidableEq, Repr

/-- One row of the `score_ranks` table: rank, Score_Min, Score_Max, Status. -/
structure RankBand where
  rank : Rank
  smin : Nat
  smax : Nat
  status : Status
  deriving DecidableEq, Repr

/-- Diamond row of `score_ranks`: Score_Min 92, Score_Max 100, PASS. -/
def diamondBand : RankBand := ⟨Rank.diamond, 92, 100, Status.PASS⟩

/-- Gold row of `score_ranks`: Score_Min 80, Score_Max 91, PASS. -/
def goldBand : RankBand := ⟨Rank.gold, 80, 91, Status.PASS⟩

/-- Silver row of `score_ranks`: Score_Min 65, Score_Max 79, SOFT_FAIL. -/
def silverBand : RankBand := ⟨Rank.silver, 65, 79, Status.SOFT_FAIL⟩

/-- Bronze row of `score_ranks`: Score_Min 0, Score_Max 64, REJECT. -/
def bronzeBand : RankBand := ⟨Rank.bronze, 0, 64, Status.REJECT⟩

/-- The `score_ranks` table from `script.py` (rows in table order). -/
def score_ranks : List RankBand := [diamondBand, goldBand, silverBand, bronzeBand]

/-- A score lies in a band when Score_Min ≤ score ≤ Score_Max (closed interval,
as the table's integer `Score_Min` / `Score_Max` columns state). -/
def inBandB (b : RankBand) (s : ℚ) : Bool :=
  decide ((b.smin : ℚ) ≤ s) && decide (s ≤ (b.smax : ℚ))

/-- Band membership for a real-valued score (same closed interval reading). -/
def memBandR (b : RankBand) (s : ℝ) : Prop :=
  (b.smin : ℝ) ≤ s ∧ s ≤ (b.smax : ℝ)

/-- Number of rank bands containing a given score. -/
def countBands (s : ℚ) : Nat := score_ranks.countP (fun b => inBandB b s)

/-- Number of rank bands containing a given integer score (same table, with the
band bounds compared as naturals). -/
def countBandsNat (n : Nat) : Nat :=
  score_ranks.countP (fun b => decide (b.smin ≤ n) && decide (n ≤ b.smax))

/-- Stability weight from `gemini_v2_weights` in `script.py`. -/
def Stability_w : ℚ := 35 / 100

/-- Identity weight from `gemini_v2_weights` in `script.py`. -/
def Identity_w : ℚ := 30 / 100

/-- Palette weight from `gemini_v2_weights` in `script.py`. -/
def Palette_w : ℚ := 20 / 100

/-- Style weight from `gemini_v2_weights` in `script.py`. -/
def Style_w : ℚ := 15 / 100

/-- Clamp to [0,1], as the sub-score formulas in `config_thresholds_data` state. -/
def clamp01 (x : ℚ) : ℚ := max 0 (min 1 x)

/-- Identity sub-score, `config_thresholds_data`:
`(dino_sim - 0.60) / 0.40, clamped [0,1]`. -/
def identityScore (dino : ℚ) : ℚ := clamp01 ((dino - 60 / 100) / (40 / 100))

/-- Palette sub-score, `config_thresholds_data`:
`1.0 - (palette_delta * 3.0)` where `palette_delta = 1 - palette_match_pct`. -/
def paletteScore (pmatch : ℚ) : ℚ := 1 - (1 - pmatch) * 3

/-- Style sub-score, `config_thresholds_data`: `1.0 - clamp(LPIPS / 0.3, 0, 1)`. -/
def styleScore (lpips : ℚ) : ℚ := 1 - clamp01 (lpips / (30 / 100))

/-- Stability sub-score, `config_thresholds_data`: `e^(-1.5 * baseline_error_px)`. -/
noncomputable def stabilityScore (px : ℝ) : ℝ := Real.exp (-(3 / 2 : ℝ) * px)

/-- `FINAL_SCORE = 100 * (0.35*S_St + 0.30*S_Id + 0.20*S_Pal + 0.15*S_Tex)`
(`config_thresholds_data` row 37), over the rationals. -/
def finalScore (sSt sId sPal sTex : ℚ) : ℚ :=
  100 * (Stability_w * sSt + Identity_w * sId + Palette_w * sPal + Style_w * sTex)

/-- The same FINAL_SCORE formula over the reals (needed where the stability
sub-score `e^(-1.5 * px)` is irrational). -/
noncomputable def finalScoreR (sSt sId sPal sTex : ℝ) : ℝ :=
  100 * (35 / 100 * sSt + 30 / 100 * sId + 20 / 100 * sPal + 15 / 100 * sTex)

/-- LPIPS_Check column of `score_ranks`: Diamond `> 0.90`, Gold `> 0.85`,
Silver `< 0.85`, Bronze `Any`. -/
def auxOkB (b : RankBand) (aux : ℚ) : Bool :=
  match b.rank with
  | Rank.diamond => decide ((9 / 10 : ℚ) < aux)
  | Rank.gold => decide ((17 / 20 : ℚ) < aux)
  | Rank.silver => decide (aux < (17 / 20 : ℚ))
  | Rank.bronze => true

/-- Modelled from the spec: the Rank Classifier `classify(score, aux_lpips)`
(no executable classifier exists in the repository; band membership is the
first matching `score_ranks` row, the numeric band is authoritative and the
aux LPIPS check only reports a per-band advisory flag). -/
def classify (s aux : ℚ) : Option (Rank × Status × Bool) :=
  (score_ranks.find? (fun b => inBandB b s)).map (fun b => (b.rank, b.status, auxOkB b aux))

/-- C1 counterexample: FINAL_SCORE 91.2 — achievable from sub-scores 0.912,
and literally present in the repository's sample `frames_data` — lies in
[0,100] yet in none of the four bands, because Gold ends at 91 and Diamond
starts at 92.  So the bands do not cover every FINAL_SCORE value in [0,100]. -/
theorem bands_gap_counterexample :
    finalScore (912 / 1000) (912 / 1000) (912 / 1000) (912 / 1000) = 456 / 5 ∧
    (0 : ℚ) ≤ 456 / 5 ∧ (456 / 5 : ℚ) ≤ 100 ∧
    countBands (456 / 5) = 0 := by
  refine ⟨?_, by norm_num, by norm_num, ?_⟩
  · unfold finalScore Stability_w Identity_w Palette_w Style_w
    norm_num
  · unfold countBands score_ranks inBandB diamondBand goldBand silverBand bronzeBand
    norm_num [List.countP_cons, List.countP_nil]

/-- The rational-score band count at an integer score agrees with the
natural-number band count. -/
lemma countBands_natCast (n : Nat) : countBands (n : ℚ) = countBandsNat n := by
  unfold countBands countBandsNat
  refine List.countP_congr (fun b _ => ?_)
  unfold inBandB
  rw [decide_eq_decide.mpr (Nat.cast_le (α := ℚ)),
    decide_eq_decide.mpr (Nat.cast_le (α := ℚ))]

/-- C1 (amended): the four `score_ranks` bands partition the integer scores of
[0,100] exactly — every integer score in [0,100] lies in exactly one band. -/
theorem bands_cover_integers : ∀ n : Nat, n ≤ 100 → countBands (n : ℚ) = 1 := by
  intro n hn
  rw [countBands_natCast]
  revert hn
  revert n
  decide

/-- C1 witness: the integer score 91 lies in exactly one band. -/
theorem bands_cover_integers_witness : countBands ((91 : Nat) : ℚ) = 1 :=
  bands_cover_integers 91 (by decide)

/-- C4: the `gemini_v2_weights` sum to exactly 1, and FINAL_SCORE is monotone
non-decreasing in each of the four sub-scores over [0,1] with the other three
held fixed. -/
theorem weights_sum_and_monotone :
    Stability_w + Identity_w + Palette_w + Style_w = 1 ∧
    (∀ a b x y z : ℚ, 0 ≤ a → a ≤ b → b ≤ 1 → 0 ≤ x → x ≤ 1 → 0 ≤ y → y ≤ 1 →
      0 ≤ z → z ≤ 1 → finalScore a x y z ≤ finalScore b x y z) ∧
    (∀ a b x y z : ℚ, 0 ≤ a → a ≤ b → b ≤ 1 → 0 ≤ x → x ≤ 1 → 0 ≤ y → y ≤ 1 →
      0 ≤ z → z ≤ 1 → finalScore x a y z ≤ finalScore x b y z) ∧
    (∀ a b x y z : ℚ, 0 ≤ a → a ≤ b → b ≤ 1 → 0 ≤ x → x ≤ 1 → 0 ≤ y → y ≤ 1 →
      0 ≤ z → z ≤ 1 → finalScore x y a z ≤ finalScore x y b z) ∧
    (∀ a b x y z : ℚ, 0 ≤ a → a ≤ b → b ≤ 1 → 0 ≤ x → x ≤ 1 → 0 ≤ y → y ≤ 1 →
      0 ≤ z → z ≤ 1 → finalScore x y z a ≤ finalScore x y z b) := by
  refine ⟨by norm_num [Stability_w, Identity_w, Palette_w, Style_w], ?_, ?_, ?_, ?_⟩ <;>
    · intro a b x y z _ hab _ _ _ _ _ _ _
      unfold finalScore Stability_w Identity_w Palette_w Style_w
      linarith

/-- C4 witness: monotonicity applied at concrete sub-scores in [0,1]. -/
theorem weights_sum_and_monotone_witness :
    finalScore 0 (1/2) (1/2) (1/2) ≤ finalScore 1 (1/2) (1/2) (1/2) :=
  weights_sum_and_monotone.2.1 0 1 (1/2) (1/2) (1/2)
    (by norm_num) (by norm_num) (by norm_num) (by norm_num) (by norm_num)
    (by norm_num) (by norm_num) (by norm_num) (by norm_num)

/-- C7 counterexample: for the example snapshot (`dino_similarity=0.95`,
`palette_match_pct=0.96`, `lpips_prev=0.03`) the Identity sub-score is
`clamp((0.95-0.60)/0.40, 0, 1) = 0.875`, not `1.0`, and the resulting
FINAL_SCORE is `92.35`, not `95.0` (even with Identity forced to `1` the
formula gives `96.1`, not `95.0`). -/
theorem example1_score_counterexample :
    identityScore (95 / 100) = 7 / 8 ∧ (7 / 8 : ℚ) ≠ 1 ∧
    paletteScore (96 / 100) = 22 / 25 ∧ styleScore (3 / 100) = 9 / 10 ∧
    finalScore 1 (7 / 8) (22 / 25) (9 / 10) = 1847 / 20 ∧ (1847 / 20 : ℚ) ≠ 95 ∧
    finalScore 1 1 (22 / 25) (9 / 10) = 961 / 10 ∧ (961 / 10 : ℚ) ≠ 95 := by
  refine ⟨?_, by norm_num, ?_, ?_, ?_, by norm_num, ?_, by norm_num⟩ <;>
    · simp only [identityScore, paletteScore, styleScore, finalScore, clamp01,
        Stability_w, Identity_w, Palette_w, Style_w]
      norm_num [min_def, max_def]

/-- C7 (amended): the example snapshot yields Stability = 1, Identity = 0.875,
Palette = 0.88, Style = 0.90, FINAL_SCORE = 92.35, and the Rank Classifier
places it in Diamond with status PASS whenever the aux LPIPS check
exceeds 0.90. -/
theorem example1_diamond_pass :
    stabilityScore 0 = 1 ∧ identityScore (95 / 100) = 7 / 8 ∧
    paletteScore (96 / 100) = 22 / 25 ∧ styleScore (3 / 100) = 9 / 10 ∧
    finalScore 1 (7 / 8) (22 / 25) (9 / 10) = 1847 / 20 ∧
    ∀ aux : ℚ, 9 / 10 < aux →
      classify (1847 / 20) aux = some (Rank.diamond, Status.PASS, true) := by
  refine ⟨?_, ?_, ?_, ?_, ?_, ?_⟩
  · unfold stabilityScore
    norm_num
  · unfold identityScore clamp01
    norm_num [min_def, max_def]
  · unfold paletteScore
    norm_num
  · unfold styleScore clamp01
    norm_num [min_def, max_def]
  · unfold finalScore Stability_w Identity_w Palette_w Style_w
    norm_num
  · intro aux haux
    have hb : inBandB diamondBand ((1847 : ℚ) / 20) = true := by
      simp only [inBandB, diamondBand]
      norm_num
    simp only [diamondBand] at hb
    unfold classify score_ranks
    simp [List.find?_cons, hb, diamondBand, auxOkB, haux]

/-- C7 witness: the classifier conclusion applied at the concrete aux
value 0.95. -/
theorem example1_diamond_pass_witness :
    classify (1847 / 20) (95 / 100) = some (Rank.diamond, Status.PASS, true) :=
  example1_diamond_pass.2.2.2.2.2 (95 / 100) (by norm_num)

/-- C8 counterexample: with `baseline_error_px = 2` and the other three
sub-scores perfect, FINAL_SCORE = 65 + 35·exp(−3) ≈ 66.74 — strictly above 65,
not "far below 65" — so the score does not lie in the Bronze band at all. -/
theorem stability_two_px_counterexample :
    65 < finalScoreR (stabilityScore 2) 1 1 1 ∧
    ¬ memBandR bronzeBand (finalScoreR (stabilityScore 2) 1 1 1) := by
  have hexp : stabilityScore 2 = Real.exp (-3) := by
    unfold stabilityScore
    norm_num
  have hpos : (0 : ℝ) < Real.exp (-3) := Real.exp_pos _
  constructor
  · rw [hexp]
    unfold finalScoreR
    nlinarith
  · rw [hexp]
    unfold memBandR finalScoreR bronzeBand
    push_cast
    intro h
    nlinarith [h.2]

/-- C8 (amended): with `baseline_error_px = 2` and perfect identity, palette
and style, Stability = exp(−3) and FINAL_SCORE = 65 + 35·exp(−3) ≈ 66.74 lies
in the Silver band, whose status is SOFT_FAIL (not Bronze/REJECT): the
stability weight drags an otherwise perfect frame from 100 down to the bottom
of Silver. -/
theorem stability_two_px_silver :
    stabilityScore 2 = Real.exp (-3) ∧
    memBandR silverBand (finalScoreR (stabilityScore 2) 1 1 1) ∧
    silverBand.status = Status.SOFT_FAIL := by
  have hexp : stabilityScore 2 = Real.exp (-3) := by
    unfold stabilityScore
    norm_num
  have hpos : (0 : ℝ) < Real.exp (-3) := Real.exp_pos _
  have hquarter : Real.exp (-3) ≤ 1 / 4 := by
    have h4 : (4 : ℝ) ≤ Real.exp 3 := by
      have := Real.add_one_le_exp (3 : ℝ)
      linarith
    have hinv : (Real.exp 3)⁻¹ ≤ (4 : ℝ)⁻¹ := inv_anti₀ (by norm_num) h4
    rw [Real.exp_neg]
    linarith
  refine ⟨hexp, ?_, rfl⟩
  rw [hexp]
  unfold memBandR finalScoreR silverBand
  push_cast
  constructor
  · nlinarith
  · nlinarith

/-- One row of the RUNS tab emitted by the generator loop in `script_1.py`
(the fields the loop computes; `run_id`/`date`/ids omitted as they do not enter
any count). -/
structure RunRecord where
  total_frames : Nat
  pass_count : Nat
  reject_count : Nat
  softfail_count : Nat
  retry_rate : ℚ
  pass_rate : ℚ
  deriving DecidableEq, Repr

/-- The RUNS-tab generator loop of `script_1.py`: five records, each with
`total = 12`, `passed = 10`, `rejected = 1`, `softfailed = 1`,
`retry_rate = 0.33`, `pass_rate = passed / total`. -/
def runsRows : List RunRecord :=
  (List.range 5).map (fun _ =>
    { total_frames := 12, pass_count := 10, reject_count := 1, softfail_count := 1,
      retry_rate := 33 / 100, pass_rate := (10 : ℚ) / 12 })

/-- C9: every record emitted by the RUNS-tab generator loop has consistent
counts — pass + reject + softfail equals total_frames — and its recorded
pass_rate equals pass_count divided by total_frames. -/
theorem runs_counts_consistent :
    ∀ r ∈ runsRows,
      r.pass_count + r.reject_count + r.softfail_count = r.total_frames ∧
      r.pass_rate = (r.pass_count : ℚ) / (r.total_frames : ℚ) := by
  intro r hr
  simp only [runsRows, List.mem_map, List.mem_range] at hr
  obtain ⟨i, _, rfl⟩ := hr
  exact ⟨by norm_num, by norm_num⟩

/-- C9 witness: the consistency facts applied to the loop's first record. -/
theorem runs_counts_consistent_witness :
    ({ total_frames := 12, pass_count := 10, reject_count := 1, softfail_count := 1,
       retry_rate := 33 / 100, pass_rate := (10 : ℚ) / 12 } : RunRecord).pass_count +
      ({ total_frames := 12, pass_count := 10, reject_count := 1, softfail_count := 1,
         retry_rate := 33 / 100, pass_rate := (10 : ℚ) / 12 } : RunRecord).reject_count +
      ({ total_frames := 12, pass_count := 10, reject_count := 1, softfail_count := 1,
         retry_rate := 33 / 100, pass_rate := (10 : ℚ) / 12 } : RunRecord).softfail_count =
      ({ total_frames := 12, pass_count := 10, reject_count := 1, softfail_count := 1,
         retry_rate := 33 / 100, pass_rate := (10 : ℚ) / 12 } : RunRecord).total_frames ∧
    ({ total_frames := 12, pass_count := 10, reject_count := 1, softfail_count := 1,
       retry_rate := 33 / 100, pass_rate := (10 : ℚ) / 12 } : RunRecord).pass_rate =
      (({ total_frames := 12, pass_count := 10, reject_count := 1, softfail_count := 1,
          retry_rate := 33 / 100, pass_rate := (10 : ℚ) / 12 } : RunRecord).pass_count : ℚ) /
      (({ total_frames := 12, pass_count := 10, reject_count := 1, softfail_count := 1,
          retry_rate := 33 / 100, pass_rate := (10 : ℚ) / 12 } : RunRecord).total_frames : ℚ) :=
  runs_counts_consistent _ (List.mem_map.mpr ⟨0, List.mem_range.mpr (by norm_num), rfl⟩)

/-- `Anchor Identity Fidelity (1-5)` column of `scoring_data` in
Project-1 `script_1.py`. -/
def anchor_identity_fidelity : List ℤ := [5, 4, 4, 5, 5, 2, 3, 3, 4, 5, 5, 5]

/-- `Pose Control / Frame Coherence (1-5)` column of `scoring_data`. -/
def pose_control : List ℤ := [5, 5, 5, 5, 5, 5, 4, 4, 5, 5, 4, 5]

/-- `Style / Pixel Stability (1-5)` column of `scoring_data`. -/
def style_pixel_stability : List ℤ := [4, 3, 3, 4, 5, 2, 2, 3, 3, 4, 4, 3]

/-- `Determinism / Reproducibility (1-5)` column of `scoring_data`. -/
def determinism_reproducibility : List ℤ := [5, 4, 5, 5, 5, 4, 3, 2, 4, 5, 4, 4]

/-- `Batchability / Automation (1-5)` column of `scoring_data`. -/
def batchability_automation : List ℤ := [5, 5, 3, 3, 4, 5, 3, 1, 5, 5, 3, 5]

/-- `Cost / Throughput (1-5)` column of `scoring_data`. -/
def cost_throughput : List ℤ := [4, 5, 4, 2, 3, 4, 2, 2, 5, 4, 3, 4]

/-- `Phaser Export Compatibility (1-5)` column of `scoring_data`. -/
def phaser_export_compat : List ℤ := [5, 5, 5, 4, 5, 5, 3, 4, 5, 5, 5, 5]

/-- `Failure Mode Severity (1-5)` column of `scoring_data` (not in
`score_cols`). -/
def failure_mode_severity : List ℤ := [2, 3, 2, 4, 2, 4, 4, 3, 3, 2, 3, 3]

/-- `Effort to Productionize (1-5)` column of `scoring_data` (not in
`score_cols`). -/
def effort_to_productionize : List ℤ := [3, 2, 4, 5, 3, 2, 4, 1, 2, 3, 4, 3]

/-- Rounding to 2 decimal places, as pandas `.round(2)` does.  (For these
inputs `100*x` is never exactly halfway between two integers — `100*s/7 = k+1/2`
would force `200*s = 14*k+7`, even = odd — so half-to-even and half-up agree.) -/
def round2 (x : ℚ) : ℚ := (round (100 * x) : ℤ) / 100

/-- Sum of the seven `score_cols` criterion columns for pipeline `i`,
per `df_scoring[score_cols]` in Project-1 `script_1.py`. -/
def criteriaSum (i : Nat) : ℤ :=
  anchor_identity_fidelity.getD i 0 + pose_control.getD i 0 +
  style_pixel_stability.getD i 0 + determinism_reproducibility.getD i 0 +
  batchability_automation.getD i 0 + cost_throughput.getD i 0 +
  phaser_export_compat.getD i 0

/-- `Avg Score (excl. Failure/Effort)` for pipeline `i`:
`df_scoring[score_cols].mean(axis=1).round(2)`. -/
def avg_score (i : Nat) : ℚ := round2 ((criteriaSum i : ℚ) / 7)

/-- C10: the `Avg Score (excl. Failure/Effort)` column is the mean of exactly
the seven criterion columns rounded to 2 decimals, evaluated here for all 12
pipelines; and the Failure/Effort columns contribute nothing to it — including
them in the mean would change the value (shown for pipeline 0). -/
theorem decision_matrix_avg :
    avg_score 0 = 471 / 100 ∧ avg_score 1 = 443 / 100 ∧ avg_score 2 = 414 / 100 ∧
    avg_score 3 = 4 ∧ avg_score 4 = 457 / 100 ∧ avg_score 5 = 386 / 100 ∧
    avg_score 6 = 286 / 100 ∧ avg_score 7 = 271 / 100 ∧ avg_score 8 = 443 / 100 ∧
    avg_score 9 = 471 / 100 ∧ avg_score 10 = 4 ∧ avg_score 11 = 443 / 100 ∧
    round2 (((criteriaSum 0 + failure_mode_severity.getD 0 0 +
      effort_to_productionize.getD 0 0 : ℤ) : ℚ) / 9) ≠ avg_score 0 := by
  have h0 : criteriaSum 0 = 33 := by decide
  have h1 : criteriaSum 1 = 31 := by decide
  have h2 : criteriaSum 2 = 29 := by decide
  have h3 : criteriaSum 3 = 28 := by decide
  have h4 : criteriaSum 4 = 32 := by decide
  have h5 : criteriaSum 5 = 27 := by decide
  have h6 : criteriaSum 6 = 20 := by decide
  have h7 : criteriaSum 7 = 19 := by decide
  have h8 : criteriaSum 8 = 31 := by decide
  have h9 : criteriaSum 9 = 33 := by decide
  have h10 : criteriaSum 10 = 28 := by decide
  have h11 : criteriaSum 11 = 31 := by decide
  have hf : failure_mode_severity.getD 0 0 = 2 := by decide
  have he : effort_to_productionize.getD 0 0 = 3 := by decide
  refine ⟨?_, ?_, ?_, ?_, ?_, ?_, ?_, ?_, ?_, ?_, ?_, ?_, ?_⟩ <;>
    simp only [avg_score, round2, h0, h1, h2, h3, h4, h5, h6, h7, h8, h9, h10, h11,
      hf, he, round_eq] <;>
    norm_num

/-- Modelled from the spec: the per-snapshot facts the five hard gates
HF-01..HF-05 examine (the Hard Gate Evaluator itself is not implemented in the
repository; only its gate/reason-code table `opus_hard_gates` is).  Gate
conditions follow the design document: HF-01 width/height/alpha, HF-02
background transparency with the 5% leak and halo limits, HF-03 baseline
within ±1 px, HF-04 JSON/naming contract, HF-05 vision-model anatomy flags. -/
structure GateInput where
  widthMatch : Bool
  heightMatch : Bool
  hasAlpha : Bool
  solidBackground : Bool
  backgroundLeakPct : ℚ
  haloEdgePct : ℚ
  baselineDriftPx : ℤ
  jsonValid : Bool
  framesComplete : Bool
  noDuplicateKeys : Bool
  namesMatch : Bool
  extraLimbs : Bool
  missingLimbs : Bool
  wrongOutfit : Bool
  identityBreak : Bool
  deriving DecidableEq, Repr

/-- HF-01 FORMAT_DIMENSIONS_MATCH passes. -/
def hf01pass (g : GateInput) : Bool := g.widthMatch && g.heightMatch && g.hasAlpha

/-- Reason codes triggered by HF-01 (code strings from `opus_hard_gates`). -/
def hf01codes (g : GateInput) : List String :=
  (if g.widthMatch then [] else ["HF01_WIDTH_MISMATCH"]) ++
  (if g.heightMatch then [] else ["HF01_HEIGHT_MISMATCH"]) ++
  (if g.hasAlpha then [] else ["HF01_NO_ALPHA"])

/-- HF-02 TRANSPARENCY_BACKGROUND passes. -/
def hf02pass (g : GateInput) : Bool :=
  !g.solidBackground && decide (g.backgroundLeakPct ≤ 5 / 100) &&
    decide (g.haloEdgePct ≤ 5 / 100)

/-- Reason codes triggered by HF-02 (code strings from `opus_hard_gates`). -/
def hf02codes (g : GateInput) : List String :=
  (if g.solidBackground then ["HF02_OPAQUE_BACKGROUND"] else []) ++
  (if 5 / 100 < g.backgroundLeakPct then ["HF02_BACKGROUND_LEAK"] else []) ++
  (if 5 / 100 < g.haloEdgePct then ["HF02_EXCESSIVE_HALO"] else [])

/-- HF-03 BASELINE_PIVOT_STABILITY passes: baseline within ±1 px. -/
def hf03pass (g : GateInput) : Bool :=
  decide (-1 ≤ g.baselineDriftPx ∧ g.baselineDriftPx ≤ 1)

/-- Reason code triggered by HF-03 (code string from `opus_hard_gates`). -/
def hf03codes (g : GateInput) : List String :=
  if -1 ≤ g.baselineDriftPx ∧ g.baselineDriftPx ≤ 1 then [] else ["HF03_BASELINE_DRIFT"]

/-- HF-04 NAMING_METADATA_CONTRACT passes. -/
def hf04pass (g : GateInput) : Bool :=
  g.jsonValid && g.framesComplete && g.noDuplicateKeys && g.namesMatch

/-- Reason codes triggered by HF-04 (code strings from `opus_hard_gates`). -/
def hf04codes (g : GateInput) : List String :=
  (if g.jsonValid then [] else ["HF04_JSON_INVALID"]) ++
  (if g.framesComplete then [] else ["HF04_MISSING_FRAMES"]) ++
  (if g.noDuplicateKeys then [] else ["HF04_DUPLICATE_KEYS"]) ++
  (if g.namesMatch then [] else ["HF04_NAME_MISMATCH"])

/-- HF-05 GROSS_ANATOMY_BREAK passes: no anatomy flag raised. -/
def hf05pass (g : GateInput) : Bool :=
  !g.extraLimbs && !g.missingLimbs && !g.wrongOutfit && !g.identityBreak

/-- Reason codes triggered by HF-05 (code strings from `opus_hard_gates`). -/
def hf05codes (g : GateInput) : List String :=
  (if g.extraLimbs then ["HF05_EXTRA_LIMBS"] else []) ++
  (if g.missingLimbs then ["HF05_MISSING_LIMBS"] else []) ++
  (if g.wrongOutfit then ["HF05_WRONG_OUTFIT"] else []) ++
  (if g.identityBreak then ["HF05_IDENTITY_BREAK"] else [])

/-- Outcome of the Hard Gate Evaluator: per-gate pass conjunction and the
concatenated reason codes of every gate (all five gates always contribute). -/
structure GateResult where
  passed : Bool
  codes : List String
  deriving DecidableEq, Repr

/-- Modelled from the spec: `evaluate(snapshot) -> GateResult`.  All five
gates are evaluated; no gate short-circuits another. -/
def evaluate (g : GateInput) : GateResult :=
  { passed := hf01pass g && hf02pass g && hf03pass g && hf04pass g && hf05pass g,
    codes := hf01codes g ++ hf02codes g ++ hf03codes g ++ hf04codes g ++ hf05codes g }

/-- Per-frame pipeline outcome: a status and the composite score, if one was
computed at all. -/
structure FrameOutcome where
  status : Status
  score : Option ℚ
  deriving DecidableEq, Repr

/-- Modelled from the spec: the frame-level pipeline.  If any hard gate fails
the frame is REJECT and the Composite Scorer is never invoked (`score = none`);
otherwise the composite score is computed and the Rank Classifier decides the
status. -/
def processFrame (g : GateInput) (sSt sId sPal sTex aux : ℚ) : FrameOutcome :=
  if (evaluate g).passed then
    let s := finalScore sSt sId sPal sTex
    { status := ((classify s aux).map (fun t => t.2.1)).getD Status.REJECT,
      score := some s }
  else
    { status := Status.REJECT, score := none }

/-- HF-01 passes exactly when it triggers no code. -/
lemma hf01_pass_iff (g : GateInput) : hf01pass g = true ↔ hf01codes g = [] := by
  unfold hf01pass hf01codes
  cases g.widthMatch <;> cases g.heightMatch <;> cases g.hasAlpha <;> simp

/-- HF-02 passes exactly when it triggers no code. -/
lemma hf02_pass_iff (g : GateInput) : hf02pass g = true ↔ hf02codes g = [] := by
  unfold hf02pass hf02codes
  by_cases h1 : (5 : ℚ) / 100 < g.backgroundLeakPct <;>
    by_cases h2 : (5 : ℚ) / 100 < g.haloEdgePct <;>
    cases g.solidBackground <;>
    simp_all [not_lt]

/-- HF-03 passes exactly when it triggers no code. -/
lemma hf03_pass_iff (g : GateInput) : hf03pass g = true ↔ hf03codes g = [] := by
  unfold hf03pass hf03codes
  by_cases h : -1 ≤ g.baselineDriftPx ∧ g.baselineDriftPx ≤ 1 <;> simp [h]

/-- HF-04 passes exactly when it triggers no code. -/
lemma hf04_pass_iff (g : GateInput) : hf04pass g = true ↔ hf04codes g = [] := by
  unfold hf04pass hf04codes
  cases g.jsonValid <;> cases g.framesComplete <;> cases g.noDuplicateKeys <;>
    cases g.namesMatch <;> simp

/-- HF-05 passes exactly when it triggers no code. -/
lemma hf05_pass_iff (g : GateInput) : hf05pass g = true ↔ hf05codes g = [] := by
  unfold hf05pass hf05codes
  cases g.extraLimbs <;> cases g.missingLimbs <;> cases g.wrongOutfit <;>
    cases g.identityBreak <;> simp

/-- A gate input on which every gate passes. -/
def gateInputOk : GateInput :=
  { widthMatch := true, heightMatch := true, hasAlpha := true,
    solidBackground := false, backgroundLeakPct := 0, haloEdgePct := 0,
    baselineDriftPx := 0, jsonValid := true, framesComplete := true,
    noDuplicateKeys := true, namesMatch := true, extraLimbs := false,
    missingLimbs := false, wrongOutfit := false, identityBreak := false }

/-- A gate input failing two different gates at once (HF-01 and HF-05). -/
def gateInputTwoFails : GateInput :=
  { gateInputOk with widthMatch := false, extraLimbs := true }

/-- C3: the Hard Gate Evaluator evaluates all five gates without
short-circuiting — a snapshot can trigger reason codes from several gates at
once — `GateResult.passed` is true iff zero codes were triggered, and on any
snapshot with a failing gate the frame is REJECT and the Composite Scorer is
never invoked. -/
theorem hard_gates_layering :
    (∀ g : GateInput, (evaluate g).passed = true ↔ (evaluate g).codes = []) ∧
    (∀ (g : GateInput) (sSt sId sPal sTex aux : ℚ), (evaluate g).passed = false →
      processFrame g sSt sId sPal sTex aux =
        { status := Status.REJECT, score := none }) ∧
    (evaluate gateInputTwoFails).codes = ["HF01_WIDTH_MISMATCH", "HF05_EXTRA_LIMBS"] ∧
    hf01pass gateInputTwoFails = false ∧ hf05pass gateInputTwoFails = false := by
  refine ⟨?_, ?_, ?_, by decide, by decide⟩
  · intro g
    show (hf01pass g && hf02pass g && hf03pass g && hf04pass g && hf05pass g) = true ↔ _
    simp only [Bool.and_eq_true, hf01_pass_iff, hf02_pass_iff, hf03_pass_iff,
      hf04_pass_iff, hf05_pass_iff]
    show _ ↔ hf01codes g ++ hf02codes g ++ hf03codes g ++ hf04codes g ++ hf05codes g = []
    simp only [List.append_eq_nil]
  · intro g sSt sId sPal sTex aux h
    unfold processFrame
    rw [h]
    simp
  · show hf01codes _ ++ hf02codes _ ++ hf03codes _ ++ hf04codes _ ++ hf05codes _ = _
    unfold hf01codes hf02codes hf03codes hf04codes hf05codes gateInputTwoFails gateInputOk
    norm_num

/-- C3 witness: on a concrete two-failure snapshot the pipeline rejects with no
composite score, and on a concrete all-pass snapshot `passed` is recovered
from the empty code list. -/
theorem hard_gates_layering_witness :
    processFrame gateInputTwoFails 1 1 1 1 1 =
      { status := Status.REJECT, score := none } ∧
    (evaluate gateInputOk).passed = true :=
  ⟨hard_gates_layering.2.1 gateInputTwoFails 1 1 1 1 1
      (by norm_num [evaluate, hf01pass, gateInputTwoFails, gateInputOk]),
    (hard_gates_layering.1 gateInputOk).mpr
      (by norm_num [evaluate, hf01codes, hf02codes, hf03codes, hf04codes,
        hf05codes, gateInputOk])⟩

/-- The reject-code vocabulary of the `reject_codes` table in `script.py`. -/
inductive ReasonCode where
  | REJ_JITTER
  | REJ_ID
  | REJ_BLUR
  | REJ_PAL
  | REJ_HALO
  | REJ_BROKEN
  deriving DecidableEq, Repr

/-- The `Ladder_Step` column of the `reject_codes` table: the fixed
reason→step routing table. -/
def reasonTargetStep : ReasonCode → Nat
  | ReasonCode.REJ_JITTER => 4
  | ReasonCode.REJ_ID => 3
  | ReasonCode.REJ_BLUR => 2
  | ReasonCode.REJ_PAL => 6
  | ReasonCode.REJ_HALO => 6
  | ReasonCode.REJ_BROKEN => 1

/-- The `Max_Attempts` column of the `retry_ladder` table for steps 1..6
(step 7, Manual Review, is the ESCALATED terminal state, not a budgeted
step). -/
def maxAttempts : Nat → Nat
  | 1 => 3
  | 2 => 2
  | 3 => 2
  | 4 => 2
  | 5 => 2
  | 6 => 1
  | _ => 0

/-- Phase of a frame identity in the Retry Ladder Controller. -/
inductive Phase where
  | running
  | passed
  | escalated
  deriving DecidableEq, Repr

/-- Modelled from the spec: the `RetryState` owned per frame identity —
per-step attempt counters, cumulative attempt counter, current step, phase
(the controller itself is not implemented in the repository; only its
`retry_ladder` step/budget table is). -/
structure RetryState where
  counts : Nat → Nat
  cum : Nat
  cur : Nat
  phase : Phase

/-- Fresh retry state: no attempts used, at step 1, running. -/
def initState : RetryState := ⟨fun _ => 0, 0, 1, Phase.running⟩

/-- The budgeted ladder steps, in order. -/
def ladderSteps : List Nat := [1, 2, 3, 4, 5, 6]

/-- Modelled from the spec: route to the mapped step, or — when its per-step
budget is exhausted — to the next higher step with budget left; `none` when
every step from the target up is exhausted (→ Manual Review). -/
def chooseStep (counts : Nat → Nat) (target : Nat) : Option Nat :=
  ladderSteps.find? (fun s => decide (target ≤ s) && decide (counts s < maxAttempts s))

/-- One evaluation outcome for a frame attempt: PASS, or a REJECT/SOFT_FAIL
with a reason code. -/
inductive Outcome where
  | pass
  | fail (r : ReasonCode)
  deriving DecidableEq, Repr

/-- Modelled from the spec: one transition of the Retry Ladder Controller.
PASS is terminal; a reason code routes via `chooseStep`, consumes one per-step
and one cumulative attempt, and reaching cumulative attempt 12 (or exhausting
all steps) forces ESCALATED. -/
def applyOutcome (st : RetryState) (o : Outcome) : RetryState :=
  match st.phase with
  | Phase.passed => st
  | Phase.escalated => st
  | Phase.running =>
    match o with
    | Outcome.pass => { st with phase := Phase.passed }
    | Outcome.fail r =>
      match chooseStep st.counts (reasonTargetStep r) with
      | none => { st with phase := Phase.escalated }
      | some s =>
        { counts := fun j => if j = s then st.counts s + 1 else st.counts j,
          cum := st.cum + 1,
          cur := s,
          phase := if 12 ≤ st.cum + 1 then Phase.escalated else Phase.running }

/-- A frame's whole retry history: fold the controller over the outcome
sequence from the fresh state. -/
def run (l : List Outcome) : RetryState := l.foldl applyOutcome initState

/-- Controller invariant: cumulative counter capped at 12, strictly below 12
while still running, and every per-step counter within its `Max_Attempts`
budget. -/
def RetryInv (st : RetryState) : Prop :=
  st.cum ≤ 12 ∧ (st.phase = Phase.running → st.cum < 12) ∧
    ∀ s, st.counts s ≤ maxAttempts s

/-- One controller transition preserves the invariant. -/
lemma applyOutcome_inv {st : RetryState} (h : RetryInv st) (o : Outcome) :
    RetryInv (applyOutcome st o) := by
  obtain ⟨h1, h2, h3⟩ := h
  cases hp : st.phase with
  | passed =>
    simp only [applyOutcome, hp]
    exact ⟨h1, h2, h3⟩
  | escalated =>
    simp only [applyOutcome, hp]
    exact ⟨h1, h2, h3⟩
  | running =>
    cases o with
    | pass =>
      simp only [applyOutcome, hp]
      exact ⟨h1, fun hh => Phase.noConfusion hh, h3⟩
    | fail r =>
      cases hc : chooseStep st.counts (reasonTargetStep r) with
      | none =>
        simp only [applyOutcome, hp, hc]
        exact ⟨h1, fun hh => Phase.noConfusion hh, h3⟩
      | some s =>
        have hcum : st.cum < 12 := h2 hp
        have hs : st.counts s < maxAttempts s := by
          have hpred := List.find?_some hc
          simp only [Bool.and_eq_true, decide_eq_true_eq] at hpred
          exact hpred.2
        simp only [applyOutcome, hp, hc]
        refine ⟨?_, ?_, ?_⟩
        · show st.cum + 1 ≤ 12
          omega
        · show (if 12 ≤ st.cum + 1 then Phase.escalated else Phase.running) =
              Phase.running → st.cum + 1 < 12
          intro hrun
          by_cases h12 : 12 ≤ st.cum + 1
          · rw [if_pos h12] at hrun
            exact Phase.noConfusion hrun
          · omega
        · intro j
          show (if j = s then st.counts s + 1 else st.counts j) ≤ maxAttempts j
          by_cases hj : j = s
          · rw [if_pos hj, hj]
            omega
          · rw [if_neg hj]
            exact h3 j

/-- The invariant holds along any fold of the controller. -/
lemma foldl_inv : ∀ (l : List Outcome) (st : RetryState), RetryInv st →
    RetryInv (l.foldl applyOutcome st)
  | [], _, h => h
  | o :: l, st, h => foldl_inv l (applyOutcome st o) (applyOutcome_inv h o)

/-- The fresh state satisfies the invariant. -/
lemma initState_inv : RetryInv initState :=
  ⟨by decide, fun _ => by decide, fun s => Nat.zero_le _⟩

/-- A transition that leaves the controller running came from a running state
and consumed exactly one cumulative attempt. -/
lemma applyOutcome_running {st : RetryState} {o : Outcome}
    (h : (applyOutcome st o).phase = Phase.running) :
    st.phase = Phase.running ∧ (applyOutcome st o).cum = st.cum + 1 := by
  cases hp : st.phase with
  | passed =>
    simp only [applyOutcome, hp] at h
    exact Phase.noConfusion h
  | escalated =>
    simp only [applyOutcome, hp] at h
    exact Phase.noConfusion h
  | running =>
    cases o with
    | pass =>
      simp only [applyOutcome, hp] at h
      exact Phase.noConfusion h
    | fail r =>
      cases hc : chooseStep st.counts (reasonTargetStep r) with
      | none =>
        simp only [applyOutcome, hp, hc] at h
        exact Phase.noConfusion h
      | some s =>
        exact ⟨rfl, by simp only [applyOutcome, hp, hc]⟩

/-- The terminal phases are absorbing: once not running, the fold is stuck. -/
lemma foldl_stuck : ∀ (l : List Outcome) (st : RetryState),
    st.phase ≠ Phase.running → l.foldl applyOutcome st = st
  | [], _, _ => rfl
  | o :: l, st, h => by
    have hfix : applyOutcome st o = st := by
      cases hp : st.phase with
      | running => exact absurd hp h
      | passed => simp [applyOutcome, hp]
      | escalated => simp [applyOutcome, hp]
    rw [List.foldl_cons, hfix]
    exact foldl_stuck l st h

/-- While the fold stays running, the cumulative counter grows by the number
of outcomes processed. -/
lemma foldl_progress : ∀ (l : List Outcome) (st : RetryState),
    (l.foldl applyOutcome st).phase = Phase.running →
    st.cum + l.length ≤ (l.foldl applyOutcome st).cum
  | [], _, _ => by simp
  | o :: l, st, h => by
    simp only [List.foldl_cons] at h ⊢
    by_cases hmid : (applyOutcome st o).phase = Phase.running
    · have ih := foldl_progress l (applyOutcome st o) h
      have hstep := (applyOutcome_running hmid).2
      simp only [List.length_cons]
      omega
    · rw [foldl_stuck l _ hmid] at h
      exact absurd h hmid

/-- C2: along every outcome sequence, the cumulative attempt counter never
exceeds 12 and stays strictly below 12 while the controller is still running;
reaching cumulative attempt 12 without a PASS forces the terminal state
ESCALATED; every per-step counter respects its `Max_Attempts` budget; and
every retry sequence terminates — after 12 outcomes the controller can no
longer be running. -/
theorem retry_cumulative_cap (l : List Outcome) :
    (run l).cum ≤ 12 ∧
    ((run l).phase = Phase.running → (run l).cum < 12) ∧
    ((run l).cum = 12 → (run l).phase ≠ Phase.passed →
      (run l).phase = Phase.escalated) ∧
    (∀ s, (run l).counts s ≤ maxAttempts s) ∧
    (12 ≤ l.length → (run l).phase ≠ Phase.running) := by
  obtain ⟨h1, h2, h3⟩ : RetryInv (run l) := foldl_inv l initState initState_inv
  refine ⟨h1, h2, ?_, h3, ?_⟩
  · intro hcum hnp
    cases hph : (run l).phase with
    | running =>
      have := h2 hph
      omega
    | passed => exact absurd hph hnp
    | escalated => rfl
  · intro hlen hrun
    have hprog : initState.cum + l.length ≤ (run l).cum :=
      foldl_progress l initState hrun
    have hlt := h2 hrun
    have hz : initState.cum = 0 := rfl
    omega

/-- A run of 12 consecutive REJ_BROKEN rejections: exhausts every ladder
budget (3+2+2+2+2+1 = 12) and must escalate. -/
def escalationRun : List Outcome := List.replicate 12 (Outcome.fail ReasonCode.REJ_BROKEN)

/-- C2 witness: after 12 straight REJ_BROKEN failures the controller has
consumed its full cumulative budget and is ESCALATED, not running. -/
theorem retry_cumulative_cap_witness :
    (run escalationRun).cum ≤ 12 ∧
    (run escalationRun).phase = Phase.escalated ∧
    (run escalationRun).phase ≠ Phase.running :=
  ⟨(retry_cumulative_cap escalationRun).1,
    (retry_cumulative_cap escalationRun).2.2.1 (by decide) (by decide),
    (retry_cumulative_cap escalationRun).2.2.2.2 (by decide)⟩

/-- C5: the reason→step table routes REJ_JITTER→4, REJ_ID→3, REJ_BLUR→2,
REJ_PAL→6, REJ_HALO→6, REJ_BROKEN→1; a REJ_ID on the very first attempt goes
to step 3, not step 1, even though step 1's budget is untouched; a routed step
always has budget left and is at or above the mapped target; when the mapped
step's budget is exhausted the controller advances to a strictly higher step;
and when every step from the target up is exhausted the controller escalates
to Manual Review. -/
theorem reason_routing :
    (reasonTargetStep ReasonCode.REJ_JITTER = 4 ∧
      reasonTargetStep ReasonCode.REJ_ID = 3 ∧
      reasonTargetStep ReasonCode.REJ_BLUR = 2 ∧
      reasonTargetStep ReasonCode.REJ_PAL = 6 ∧
      reasonTargetStep ReasonCode.REJ_HALO = 6 ∧
      reasonTargetStep ReasonCode.REJ_BROKEN = 1) ∧
    (applyOutcome initState (Outcome.fail ReasonCode.REJ_ID)).cur = 3 ∧
    (∀ (c : Nat → Nat) (r : ReasonCode) (s : Nat),
      chooseStep c (reasonTargetStep r) = some s →
        reasonTargetStep r ≤ s ∧ c s < maxAttempts s) ∧
    (∀ (c : Nat → Nat) (r : ReasonCode) (s : Nat),
      maxAttempts (reasonTargetStep r) ≤ c (reasonTargetStep r) →
      chooseStep c (reasonTargetStep r) = some s → reasonTargetStep r < s) ∧
    (∀ (st : RetryState) (r : ReasonCode), st.phase = Phase.running →
      chooseStep st.counts (reasonTargetStep r) = none →
      (applyOutcome st (Outcome.fail r)).phase = Phase.escalated) := by
  refine ⟨by decide, by decide, ?_, ?_, ?_⟩
  · intro c r s h
    have hp := List.find?_some h
    simp only [Bool.and_eq_true, decide_eq_true_eq] at hp
    exact hp
  · intro c r s hex h
    have hp := List.find?_some h
    simp only [Bool.and_eq_true, decide_eq_true_eq] at hp
    rcases Nat.lt_or_ge (reasonTargetStep r) s with hlt | hge
    · exact hlt
    · exfalso
      have hs : s = reasonTargetStep r := Nat.le_antisymm hge hp.1
      rw [hs] at hp
      omega
  · intro st r hph hc
    simp [applyOutcome, hph, hc]

/-- C5 witness: routing applied at concrete states — a fresh counter routes
REJ_ID to step 3 with budget left; with step 1 exhausted a REJ_BROKEN routes
strictly above step 1; with every budget exhausted a REJ_BROKEN escalates. -/
theorem reason_routing_witness :
    (reasonTargetStep ReasonCode.REJ_ID ≤ 3 ∧ 0 < maxAttempts 3) ∧
    reasonTargetStep ReasonCode.REJ_BROKEN < 2 ∧
    (applyOutcome ⟨fun s => maxAttempts s, 12, 6, Phase.running⟩
      (Outcome.fail ReasonCode.REJ_BROKEN)).phase = Phase.escalated :=
  ⟨reason_routing.2.2.1 (fun _ => 0) ReasonCode.REJ_ID 3 (by decide),
    reason_routing.2.2.2.1 (fun s => if s = 1 then 3 else 0) ReasonCode.REJ_BROKEN 2
      (by decide) (by decide),
    reason_routing.2.2.2.2 ⟨fun s => maxAttempts s, 12, 6, Phase.running⟩
      ReasonCode.REJ_BROKEN rfl (by decide)⟩

/-- A lower-is-bad metric row of `opus_thresholds`: Hard_Fail below `hardT`,
Soft_Fail_Warn in [hardT, passT), Pass at or above `passT` (boundary semantics
as in the predicate strings of `opus_soft_fails` / `config_thresholds_data`,
e.g. SF-01 hard `ssim < 0.75`, soft `ssim < 0.85`, pass `ssim >= 0.85`). -/
structure LowMetric where
  hardT : ℚ
  passT : ℚ
  deriving DecidableEq, Repr

/-- The three threshold conditions of a lower-is-bad metric at reading `q`,
in table order Hard_Fail, Soft_Fail_Warn, Pass. -/
def LowMetric.bands (m : LowMetric) (q : ℚ) : List Bool :=
  [decide (q < m.hardT), decide (m.hardT ≤ q ∧ q < m.passT), decide (m.passT ≤ q)]

/-- A higher-is-bad metric row of `opus_thresholds`: Hard_Fail above `hardT`,
Soft_Fail_Warn in (passT, hardT], Pass at or below `passT` (boundary semantics
as in the predicate strings, e.g. SF-03 hard `> 20%`, soft `> 15%`,
pass `<= 15%`). -/
structure HighMetric where
  hardT : ℚ
  passT : ℚ
  deriving DecidableEq, Repr

/-- The three threshold conditions of a higher-is-bad metric at reading `q`,
in table order Hard_Fail, Soft_Fail_Warn, Pass. -/
def HighMetric.bands (m : HighMetric) (q : ℚ) : List Bool :=
  [decide (m.hardT < q), decide (m.passT < q ∧ q ≤ m.hardT), decide (q ≤ m.passT)]

/-- `SSIM (vs anchor)` row of `opus_thresholds`: `< 0.75` / `0.75–0.84` /
`≥ 0.85`. -/
def ssim_anchor_m : LowMetric := ⟨3 / 4, 17 / 20⟩

/-- `DINO similarity` row of `opus_thresholds`: `< 0.80` / `0.80–0.89` /
`≥ 0.90`. -/
def dino_m : LowMetric := ⟨4 / 5, 9 / 10⟩

/-- `Frame-to-frame SSIM` row of `opus_thresholds`: `< 0.70` / `0.70–0.84` /
`≥ 0.85`. -/
def frame_ssim_m : LowMetric := ⟨7 / 10, 17 / 20⟩

/-- `LPIPS (frame-to-frame)` row of `opus_thresholds`: `> 0.25` /
`0.15–0.25` / pass `lpips <= 0.15` (per `config_thresholds_data` SF-04). -/
def lpips_m : HighMetric := ⟨1 / 4, 3 / 20⟩

/-- `Palette match %` row of `opus_thresholds`: `< 80%` / `80–89%` / `≥ 90%`. -/
def palette_m : LowMetric := ⟨4 / 5, 9 / 10⟩

/-- `Line weight drift` row of `opus_thresholds`: `> 20%` / `15–20%` /
`≤ 15%`. -/
def line_weight_m : HighMetric := ⟨1 / 5, 3 / 20⟩

/-- `Fringe severity` row of `opus_thresholds`: `> 0.3` / `0.1–0.3` / `≤ 0.1`. -/
def fringe_m : HighMetric := ⟨3 / 10, 1 / 10⟩

/-- `Baseline drift (px)` row of `opus_thresholds`: `> 2` / `2` / `≤ 1`,
over the integer pixel drift (baseline rows are integer row indices). -/
def baselineBands (d : ℤ) : List Bool :=
  [decide (2 < d), decide (d = 2), decide (d ≤ 1)]

/-- A lower-is-bad row with ordered thresholds has mutually exclusive, jointly
exhaustive conditions: exactly one of the three holds at any reading. -/
lemma lowBand_count (m : LowMetric) (h : m.hardT ≤ m.passT) (q : ℚ) :
    (m.bands q).count true = 1 := by
  unfold LowMetric.bands
  rcases lt_or_le q m.hardT with h1 | h1
  · have h2 : ¬ m.hardT ≤ q := not_le.mpr h1
    have h3 : ¬ m.passT ≤ q := not_le.mpr (h1.trans_le h)
    simp [List.count_cons, h1, h2, h3]
  · rcases lt_or_le q m.passT with h2 | h2
    · have h4 : ¬ q < m.hardT := not_lt.mpr h1
      have h5 : ¬ m.passT ≤ q := not_le.mpr h2
      simp [List.count_cons, h1, h2, h4, h5]
    · have h4 : ¬ q < m.hardT := not_lt.mpr h1
      have h5 : ¬ q < m.passT := not_lt.mpr h2
      simp [List.count_cons, h2, h4, h5]

/-- A higher-is-bad row with ordered thresholds has mutually exclusive,
jointly exhaustive conditions: exactly one of the three holds at any
reading. -/
lemma highBand_count (m : HighMetric) (h : m.passT ≤ m.hardT) (q : ℚ) :
    (m.bands q).count true = 1 := by
  unfold HighMetric.bands
  rcases lt_or_le m.hardT q with h1 | h1
  · have h2 : ¬ q ≤ m.hardT := not_le.mpr h1
    have h3 : ¬ q ≤ m.passT := not_le.mpr (h.trans_lt h1)
    simp [List.count_cons, h1, h2, h3]
  · rcases lt_or_le m.passT q with h2 | h2
    · have h4 : ¬ m.hardT < q := not_lt.mpr h1
      simp [List.count_cons, h1, h2, h4, not_le.mpr h2]
    · have h4 : ¬ m.hardT < q := not_lt.mpr h1
      have h5 : ¬ m.passT < q := not_lt.mpr h2
      simp [List.count_cons, h2, h4, h5]

/-- The eight metric readings scored by the soft-fail threshold table. -/
structure MetricValues where
  ssim_vs_anchor : ℚ
  dino_similarity : ℚ
  frame_ssim : ℚ
  lpips_frame : ℚ
  palette_match_pct : ℚ
  line_weight_drift : ℚ
  baseline_drift_px : ℤ
  fringe_severity : ℚ
  deriving DecidableEq, Repr

/-- Some metric breaches its Hard_Fail threshold (`opus_thresholds`). -/
def hardFloorBreached (v : MetricValues) : Bool :=
  decide (v.ssim_vs_anchor < ssim_anchor_m.hardT) ||
  decide (v.dino_similarity < dino_m.hardT) ||
  decide (v.frame_ssim < frame_ssim_m.hardT) ||
  decide (lpips_m.hardT < v.lpips_frame) ||
  decide (v.palette_match_pct < palette_m.hardT) ||
  decide (line_weight_m.hardT < v.line_weight_drift) ||
  decide ((2 : ℤ) < v.baseline_drift_px) ||
  decide (fringe_m.hardT < v.fringe_severity)

/-- Modelled from the spec: the layered status decision — any soft-fail
hard-floor breach forces REJECT regardless of FINAL_SCORE; otherwise the
status of the score's rank band. -/
def sfStatus (v : MetricValues) (score : ℚ) : Status :=
  if hardFloorBreached v then Status.REJECT
  else ((score_ranks.find? (fun b => inBandB b score)).map
    (fun b => b.status)).getD Status.REJECT

/-- C6: for each of the eight metrics of the threshold table the Hard_Fail,
Soft_Fail_Warn and Pass conditions are mutually exclusive and jointly
exhaustive over the metric's value range (exactly one of the three holds at
any reading), and any hard-floor breach forces status REJECT regardless of
the composite score. -/
theorem sf_thresholds_partition :
    (∀ q : ℚ, (ssim_anchor_m.bands q).count true = 1) ∧
    (∀ q : ℚ, (dino_m.bands q).count true = 1) ∧
    (∀ q : ℚ, (frame_ssim_m.bands q).count true = 1) ∧
    (∀ q : ℚ, (lpips_m.bands q).count true = 1) ∧
    (∀ q : ℚ, (palette_m.bands q).count true = 1) ∧
    (∀ q : ℚ, (line_weight_m.bands q).count true = 1) ∧
    (∀ d : ℤ, (baselineBands d).count true = 1) ∧
    (∀ q : ℚ, (fringe_m.bands q).count true = 1) ∧
    (∀ (v : MetricValues) (score : ℚ), hardFloorBreached v = true →
      sfStatus v score = Status.REJECT) := by
  refine ⟨lowBand_count ssim_anchor_m (by norm_num [ssim_anchor_m]),
    lowBand_count dino_m (by norm_num [dino_m]),
    lowBand_count frame_ssim_m (by norm_num [frame_ssim_m]),
    highBand_count lpips_m (by norm_num [lpips_m]),
    lowBand_count palette_m (by norm_num [palette_m]),
    highBand_count line_weight_m (by norm_num [line_weight_m]),
    ?_,
    highBand_count fringe_m (by norm_num [fringe_m]),
    ?_⟩
  · intro d
    unfold baselineBands
    rcases lt_trichotomy d 2 with h | h | h
    · have h1 : ¬ 2 < d := by omega
      have h2 : d ≠ 2 := by omega
      have h3 : d ≤ 1 := by omega
      simp [List.count_cons, h1, h2, h3]
    · have h1 : ¬ 2 < d := by omega
      have h3 : ¬ d ≤ 1 := by omega
      simp [List.count_cons, h, h1, h3]
    · have h2 : d ≠ 2 := by omega
      have h3 : ¬ d ≤ 1 := by omega
      simp [List.count_cons, h, h2, h3]
  · intro v score h
    unfold sfStatus
    rw [h]
    simp

/-- C6 witness: a snapshot whose fringe severity 0.4 breaches its hard floor
is REJECT even at composite score 99. -/
theorem sf_thresholds_partition_witness :
    sfStatus ⟨1, 1, 1, 0, 1, 0, 0, 2 / 5⟩ 99 = Status.REJECT :=
  sf_thresholds_partition.2.2.2.2.2.2.2.2 ⟨1, 1, 1, 0, 1, 0, 0, 2 / 5⟩ 99
    (by norm_num [hardFloorBreached, ssim_anchor_m, dino_m, frame_ssim_m,
      lpips_m, palette_m, line_weight_m, fringe_m])
